import Mathlib

/-!
Verification of the logcat ingestion / filtering / archival subsystem.

The definitions below are a shallow embedding of the Python sources:
  * `Adayo_Mega_TestTool.py`  — `LogLevel`, `LOGCAT_REGEX`, `_parse_log_line`,
    `_check_log_filter`, `_on_new_live_log`, `_clear_live_logcat_view`,
    `start_monitor` / `stop_monitor`, `MAX_LIVE_LOG_ROWS`;
  * `ai_root_gain.py`         — `_recorder_worker`, `_get_new_filepath`;
  * `ivi_toolbox.py`          — `_parse_log_line`, `_format_log_line`.

Strings are modelled as `List Char`.  Character classes of the Python `re`
module (`\s`, `\d`) are modelled over ASCII; the `adb logcat -v threadtime`
wire format only produces ASCII in the structural columns, so this is the
relevant fragment.  Fallible Python code (`try`/`except`, `re.match`
returning `None`) is modelled with `Option`.
-/

/-- Python `\s` over ASCII: the whitespace class used by `LOGCAT_REGEX`
and by `str.strip()`. -/
def pyIsSpace (c : Char) : Bool :=
  c = ' ' || c = '\t' || c = '\n' || c = '\r' || c = '\x0b' || c = '\x0c'

/-- Python `str.strip()`: remove leading and trailing whitespace. -/
def pyStrip (cs : List Char) : List Char :=
  ((cs.dropWhile pyIsSpace).reverse.dropWhile pyIsSpace).reverse

/-- Python `int()` on a non-empty string of decimal digits. -/
def digitsToNat (ds : List Char) : Nat :=
  ds.foldl (fun n c => n * 10 + (c.toNat - '0'.toNat)) 0

/-- Match exactly `n` decimal digits (`\d{n}`), returning the digit group and
the rest of the input. -/
def takeDigits : Nat → List Char → Option (List Char × List Char)
  | 0, cs => some ([], cs)
  | _ + 1, [] => none
  | n + 1, c :: cs =>
      if c.isDigit then (takeDigits n cs).map (fun p => (c :: p.1, p.2)) else none

/-- Match one literal character. -/
def expectChar (c : Char) : List Char → Option (List Char)
  | [] => none
  | x :: xs => if x = c then some xs else none

/-- Match a maximal non-empty run of characters satisfying `p`
(`\s+` / `\d+`; the greedy maximal run is the unique match whenever the
following regex token is drawn from a disjoint character class). -/
def takeRun (p : Char → Bool) (cs : List Char) : Option (List Char × List Char) :=
  let pre := cs.takeWhile p
  if pre.isEmpty then none else some (pre, cs.drop pre.length)

/-- Log levels: the `LogLevel` Enum of `Adayo_Mega_TestTool.py` (lines 63-70). -/
inductive LogLevel where
  | FATAL | ERROR | WARN | INFO | DEBUG | VERBOSE | UNKNOWN
deriving DecidableEq

/-- The `.value` of each `LogLevel` member — the single-character level code.
`_check_log_filter` compares these characters (as one-character Python
strings, i.e. by code point). -/
def LogLevel.value : LogLevel → Char
  | .FATAL => 'F'
  | .ERROR => 'E'
  | .WARN => 'W'
  | .INFO => 'I'
  | .DEBUG => 'D'
  | .VERBOSE => 'V'
  | .UNKNOWN => 'U'

/-- The named groups of `LOGCAT_REGEX` (`Adayo_Mega_TestTool.py` lines 82-90):
`^(?P<month>\d{2})-(?P<day>\d{2})\s+(?P<hour>\d{2}):(?P<minute>\d{2}):`
`(?P<second>\d{2})\.(?P<millisecond>\d{3})\s+(?P<pid>\d+)\s+(?P<tid>\d+)\s+`
`(?P<level>[A-Z])\s+(?P<tag>[^:]*):\s+(?P<message>.*)$`. -/
structure LogcatGroups where
  month : List Char
  day : List Char
  hour : List Char
  minute : List Char
  second : List Char
  millisecond : List Char
  pid : List Char
  tid : List Char
  level : Char
  tag : List Char
  message : List Char
deriving DecidableEq

/-- The `(?P<level>[A-Z])\s+(?P<tag>[^:]*):\s+(?P<message>.*)$` tail of
`LOGCAT_REGEX`.  `[^:]*` necessarily stops at the first colon after the level
column (it cannot cross a colon, and shrinking it on backtracking would put a
non-colon character under the literal `:`), and `(?P<message>.*)$` — with `.`
not matching a newline and `$` matching at the end of the string or before
one final newline — accepts exactly a newline-free remainder followed by
nothing or by one final `'\n'`. -/
def matchLevelTail (month day hour minute second millisecond pid tid : List Char) :
    List Char → Option LogcatGroups
  | [] => none
  | levelc :: r =>
      if 'A' ≤ levelc && levelc ≤ 'Z' then
        match takeRun pyIsSpace r with
        | none => none
        | some (_, r) =>
        let tag := r.takeWhile (fun c => c ≠ ':')
        match expectChar ':' (r.drop tag.length) with
        | none => none
        | some r =>
        match takeRun pyIsSpace r with
        | none => none
        | some (_, r) =>
        let message := r.takeWhile (fun c => c ≠ '\n')
        let rest := r.drop message.length
        if rest = [] || rest = ['\n'] then
          some ⟨month, day, hour, minute, second, millisecond, pid, tid,
                levelc, tag, message⟩
        else none
      else none

/-- The `(?P<pid>\d+)\s+(?P<tid>\d+)\s+` columns followed by the level tail. -/
def matchPidTid (month day hour minute second millisecond : List Char) (cs : List Char) :
    Option LogcatGroups :=
  match takeRun Char.isDigit cs with
  | none => none
  | some (pid, r) =>
  match takeRun pyIsSpace r with
  | none => none
  | some (_, r) =>
  match takeRun Char.isDigit r with
  | none => none
  | some (tid, r) =>
  match takeRun pyIsSpace r with
  | none => none
  | some (_, r) => matchLevelTail month day hour minute second millisecond pid tid r

/-- The `(?P<hour>\d{2}):(?P<minute>\d{2}):(?P<second>\d{2})\.`
`(?P<millisecond>\d{3})\s+` columns followed by the pid/tid columns. -/
def matchClock (month day : List Char) (cs : List Char) : Option LogcatGroups :=
  match takeDigits 2 cs with
  | none => none
  | some (hour, r) =>
  match expectChar ':' r with
  | none => none
  | some r =>
  match takeDigits 2 r with
  | none => none
  | some (minute, r) =>
  match expectChar ':' r with
  | none => none
  | some r =>
  match takeDigits 2 r with
  | none => none
  | some (second, r) =>
  match expectChar '.' r with
  | none => none
  | some r =>
  match takeDigits 3 r with
  | none => none
  | some (millisecond, r) =>
  match takeRun pyIsSpace r with
  | none => none
  | some (_, r) => matchPidTid month day hour minute second millisecond r

/-- `LOGCAT_REGEX.match(line)` (the `^(?P<month>\d{2})-(?P<day>\d{2})\s+`
head followed by the clock, pid/tid and level/tag/message columns).  The
regex is deterministic on every input: each greedy `\s+` / `\d+` run is
followed by a token from a disjoint character class, so the maximal run is
the unique viable match and no backtracking can produce a different
decomposition. -/
def matchLogcat (cs : List Char) : Option LogcatGroups :=
  match takeDigits 2 cs with
  | none => none
  | some (month, r) =>
  match expectChar '-' r with
  | none => none
  | some r =>
  match takeDigits 2 r with
  | none => none
  | some (day, r) =>
  match takeRun pyIsSpace r with
  | none => none
  | some (_, r) => matchClock month day r

/-- A Python `datetime` value, as carried by the `timestamp` field of
`LogEntry` (millisecond precision stored as microseconds). -/
structure Timestamp where
  year : Nat
  month : Nat
  day : Nat
  hour : Nat
  minute : Nat
  second : Nat
  microsecond : Nat
deriving DecidableEq

/-- The `LogEntry` dataclass of `Adayo_Mega_TestTool.py` (lines 72-80). -/
structure LogEntry where
  timestamp : Timestamp
  level : LogLevel
  pid : Nat
  tid : Nat
  tag : List Char
  message : List Char
  raw_line : List Char
deriving DecidableEq

/-- `LogcatMonitorWorker._parse_log_line` (`Adayo_Mega_TestTool.py` lines
134-169).  When `LOGCAT_REGEX` does not match, the function falls through and
returns `None`.  When it does match, the first statement of the `try` block,
`now = datetime.now()` (line 140), raises `AttributeError`: line 3 of the
file is `import datetime`, binding the MODULE (every other call site in the
file writes `datetime.datetime.now()`), and the module has no attribute
`now`; `datetime(...)` on line 143 would likewise raise `TypeError`.  The
`except Exception: pass` absorbs the exception and the function again falls
through to `return None`.  Hence `_parse_log_line` returns `None` on every
input and never constructs a `LogEntry`: the level mapping, `int()`
conversions and field stripping on lines 141-165 are dead code. -/
def parseLogLine (line : List Char) : Option LogEntry :=
  match matchLogcat line with
  | none => none
  | some _ => none

/-- The `logcat_filter_criteria` dictionary.  `tag_regex` / `msg_regex` model
compiled regexes by their `search` predicate (a compiled pattern object is
always truthy in Python, so only `None`-ness matters for the guards). -/
structure FilterCriteria where
  min_level : LogLevel
  tag_regex : Option (List Char → Bool)
  msg_regex : Option (List Char → Bool)
  pid_tid : Option (List Nat)

/-- `_check_log_filter` (`Adayo_Mega_TestTool.py` lines 1626-1645).  Each
`if ...: return False` guard appears in source order.  The level guard
compares the one-character `.value` strings, i.e. the code points of the
level letters.  In the `pid_tid` guard, `if pid_tids and ...` is Python
truthiness: an empty list behaves like `None`. -/
def checkLogFilter (crit : FilterCriteria) (entry : LogEntry) : Bool :=
  if entry.level.value < crit.min_level.value then false
  else if crit.tag_regex.elim false (fun r => !r entry.tag) then false
  else if crit.msg_regex.elim false (fun r => !r entry.message) then false
  else if crit.pid_tid.elim false
      (fun l => !l.isEmpty && !l.contains entry.pid && !l.contains entry.tid) then false
  else true

/-- The filter criteria installed by `AdayoMegaTool.__init__` (lines 904-909):
`min_level = LogLevel.VERBOSE`, all other fields `None`.  Selecting level
"ALL" in `_apply_live_logcat_filter` (lines 1600-1605) reinstalls the same
`min_level = LogLevel.VERBOSE`. -/
def defaultFilterCriteria : FilterCriteria :=
  { min_level := .VERBOSE, tag_regex := none, msg_regex := none, pid_tid := none }

/-- Criteria identical to `defaultFilterCriteria` except for `min_level`,
as produced by selecting level "ERROR". -/
def errorFilterCriteria : FilterCriteria :=
  { min_level := .ERROR, tag_regex := none, msg_regex := none, pid_tid := none }

/-- Criteria with `min_level = WARN` and every other field absent. -/
def warnFilterCriteria : FilterCriteria :=
  { min_level := .WARN, tag_regex := none, msg_regex := none, pid_tid := none }

/-- Number of records of a stream accepted by `_check_log_filter` under
fixed criteria. -/
def countAccepted (crit : FilterCriteria) (recs : List LogEntry) : Nat :=
  (recs.filter (fun e => checkLogFilter crit e)).length

/-- `MAX_LIVE_LOG_ROWS` (`Adayo_Mega_TestTool.py` line 94). -/
def MAX_LIVE_LOG_ROWS : Nat := 5000

/-- The row-limit step of `_on_new_live_log` (lines 1658-1665): if the table
already holds `MAX_LIVE_LOG_ROWS` rows, `removeRow(0)` evicts the oldest,
then the new row is inserted at the end. -/
def pushLiveRow {α : Type} (buf : List α) (e : α) : List α :=
  (if MAX_LIVE_LOG_ROWS ≤ buf.length then buf.drop 1 else buf) ++ [e]

/-- The live table contents after pushing a whole sequence of accepted
records into an initially empty table. -/
def liveBufferAfter {α : Type} (recs : List α) : List α :=
  recs.foldl pushLiveRow []

/-- The mutable state of `LogcatMonitorWorker` relevant to process cleanup:
`_running` and `_adb_process` (a held process handle, or `none` once
released). -/
structure MonitorState where
  running : Bool
  adb_process : Option Nat
deriving DecidableEq

/-- `stop_monitor` (`Adayo_Mega_TestTool.py` lines 220-244): the guard
`if not self._running: return` leaves the state untouched; otherwise
`_running` is cleared and, after terminate/wait (escalating to kill on
timeout), `_adb_process` is set to `None`. -/
def stopMonitor (s : MonitorState) : MonitorState :=
  if s.running = false then s
  else { running := false, adb_process := none }

/-- The `finally` block of `start_monitor` (lines 215-218), executed on every
exit of the reader loop: `self._running = False` followed by
`self.stop_monitor()`. -/
def monitorFinallyBlock (s : MonitorState) : MonitorState :=
  stopMonitor { s with running := false }

/-- The state in which the reader loop of `start_monitor` ends when the
producer process exits on its own (EOF on its stdout): still running, the
process handle still held; then the `finally` block runs. -/
def producerSelfExitResult (pid : Nat) : MonitorState :=
  monitorFinallyBlock { running := true, adb_process := some pid }

/-- The main-window state touched or read by `_clear_live_logcat_view`
(lines 1588-1595) and its surroundings: the live table rows, the two session
counters, the filter criteria and the monitor worker state. -/
structure AppState where
  logcat_table : List LogEntry
  logcat_total_lines : Nat
  logcat_displayed_lines : Nat
  logcat_filter_criteria : FilterCriteria
  worker : MonitorState

/-- `_clear_live_logcat_view` (lines 1588-1595): `setRowCount(0)`,
`logcat_displayed_lines = 0`, `logcat_total_lines = 0`; nothing else of the
session is touched. -/
def clearLiveLogcatView (s : AppState) : AppState :=
  { s with logcat_table := [], logcat_total_lines := 0, logcat_displayed_lines := 0 }

/-- `_on_new_live_log` (lines 1647-1665): count the line, drop it if the
filter rejects it, otherwise count it as displayed and push it into the
bounded table. -/
def onNewLiveLog (s : AppState) (e : LogEntry) : AppState :=
  let s := { s with logcat_total_lines := s.logcat_total_lines + 1 }
  if checkLogFilter s.logcat_filter_criteria e then
    { s with logcat_displayed_lines := s.logcat_displayed_lines + 1,
             logcat_table := pushLiveRow s.logcat_table e }
  else s

/-! ### `ai_root_gain.py` — rotating archive writer -/

/-- The state of `_recorder_worker` (`ai_root_gain.py` lines 261-285):
segments already closed by rotation (in increasing part order), the lines and
byte count (`f.tell()`) of the currently open segment, and the part index
that `_get_new_filepath` assigned to the open segment. -/
structure RecorderState (α : Type) where
  closed : List (List α)
  current : List α
  currentSize : Nat
  rotation_index : Nat

/-- The rotation threshold `self.max_file_size_mb * 1024 * 1024`. -/
def maxFileBytes (mb : Nat) : Nat := mb * 1024 * 1024

/-- One iteration of the `_recorder_worker` loop for one line read from the
producer: `f.write(line)`, then `if f.tell() > threshold:` close the segment
and open the next part (`_get_new_filepath` increments `rotation_index`).
`sz` gives the number of bytes a line adds to `f.tell()`. -/
def recorderWrite {α : Type} (sz : α → Nat) (maxBytes : Nat)
    (s : RecorderState α) (line : α) : RecorderState α :=
  let cur := s.current ++ [line]
  let size := s.currentSize + sz line
  if maxBytes < size then
    { closed := s.closed ++ [cur], current := [], currentSize := 0,
      rotation_index := s.rotation_index + 1 }
  else
    { s with current := cur, currentSize := size }

/-- The recorder state at the start of `_recorder_worker`: no closed segment,
an empty first file whose path was produced by the initial
`_get_new_filepath` call (part index 1). -/
def recorderInit (α : Type) : RecorderState α := ⟨[], [], 0, 1⟩

/-- Run `_recorder_worker` over a whole finite stream of lines. -/
def recorderRun {α : Type} (sz : α → Nat) (maxBytes : Nat) (lines : List α) :
    RecorderState α :=
  lines.foldl (recorderWrite sz maxBytes) (recorderInit α)

/-- All produced segments in increasing part order: the rotated-out files
followed by the file still open when the stream ends. -/
def segmentsOf {α : Type} (s : RecorderState α) : List (List α) :=
  s.closed ++ [s.current]

/-! ### `ivi_toolbox.py` — parser and crash scan -/

/-- The dictionary returned by `ivi_toolbox.py`'s `_parse_log_line`
(lines 819-833); `level` is the one-character contents of group 4. -/
structure IviParsed where
  time : List Char
  pid : List Char
  tid : List Char
  level : Char
  tag : List Char
  message : List Char
deriving DecidableEq

/-- The `([VDIWEF])\s+([^:]+):\s*(.*)` tail of the `ivi_toolbox.py` pattern.
`[^:]+` must end at the first colon; the greedy `\s+` before it backtracks by
exactly one character when that colon immediately follows the whitespace run,
which is the only way to leave the mandatory non-empty tag, so the tag starts
at `min w (k-1)` where `w` is the length of the whitespace run and `k` the
index of the first colon.  `\s*(.*)` then takes the maximal whitespace run
followed by everything up to a newline or the end. -/
def iviMatchLevelTail (time pid tid : List Char) : List Char → Option IviParsed
  | [] => none
  | levelc :: r =>
      if (['V', 'D', 'I', 'W', 'E', 'F'] : List Char).contains levelc then
        let w := (r.takeWhile pyIsSpace).length
        let k := (r.takeWhile (fun c => c ≠ ':')).length
        if 1 ≤ w ∧ 2 ≤ k ∧ k < r.length then
          let a := min w (k - 1)
          let tag := (r.take k).drop a
          let body := (r.drop (k + 1)).dropWhile pyIsSpace
          some ⟨time, pid, tid, levelc, tag, body.takeWhile (fun c => c ≠ '\n')⟩
        else none
      else none

/-- Continuation of `iviMatch` after the minutes column. -/
def iviMatchRest (mo dy ws1 hh mi : List Char) (cs : List Char) : Option IviParsed :=
  match expectChar ':' cs with
  | none => none
  | some r =>
  match takeDigits 2 r with
  | none => none
  | some (ss, r) =>
  match expectChar '.' r with
  | none => none
  | some r =>
  match takeDigits 3 r with
  | none => none
  | some (ms, r) =>
  match takeRun pyIsSpace r with
  | none => none
  | some (_, r) =>
  match takeRun Char.isDigit r with
  | none => none
  | some (pid, r) =>
  match takeRun pyIsSpace r with
  | none => none
  | some (_, r) =>
  match takeRun Char.isDigit r with
  | none => none
  | some (tid, r) =>
  match takeRun pyIsSpace r with
  | none => none
  | some (_, r) =>
      iviMatchLevelTail
        (mo ++ ['-'] ++ dy ++ ws1 ++ hh ++ [':'] ++ mi ++ [':'] ++ ss ++ ['.'] ++ ms)
        pid tid r

/-- `re.match` of the `ivi_toolbox.py` pattern
`(\d{2}-\d{2}\s+\d{2}:\d{2}:\d{2}\.\d{3})\s+(\d+)\s+(\d+)\s+([VDIWEF])\s+`
`([^:]+):\s*(.*)` (line 822).  Group 1 keeps the original whitespace between
the date and the clock.  As with `LOGCAT_REGEX`, every other greedy run is
followed by a disjoint character class, so the match is deterministic. -/
def iviMatch (cs : List Char) : Option IviParsed :=
  match takeDigits 2 cs with
  | none => none
  | some (mo, r) =>
  match expectChar '-' r with
  | none => none
  | some r =>
  match takeDigits 2 r with
  | none => none
  | some (dy, r) =>
  match takeRun pyIsSpace r with
  | none => none
  | some (ws1, r) =>
  match takeDigits 2 r with
  | none => none
  | some (hh, r) =>
  match expectChar ':' r with
  | none => none
  | some r =>
  match takeDigits 2 r with
  | none => none
  | some (mi, r) => iviMatchRest mo dy ws1 hh mi r

/-- `ivi_toolbox.py`'s `_parse_log_line` (lines 819-833): the regex groups,
with the tag stripped (`match.group(5).strip()`); the message is kept
verbatim.  An unmatched line yields `None` (the caller prints it dim and
unscanned). -/
def iviParseLogLine (line : List Char) : Option IviParsed :=
  (iviMatch line).map fun p => { p with tag := pyStrip p.tag }

/-- The crash keyword list of `_format_log_line` (lines 853-854). -/
def crashKeywords : List (List Char) :=
  ["FATAL EXCEPTION".toList, "ANR in".toList, "Native crash".toList,
   "SIGSEGV".toList, "SIGABRT".toList]

/-- Python `needle in hay` on strings: substring test. -/
def pyInStr (needle hay : List Char) : Bool :=
  (List.range (hay.length + 1)).any fun i => needle.isPrefixOf (hay.drop i)

/-- The `is_crash` computation of `_format_log_line` (lines 853-854): the
CRASH flag is raised iff some crash keyword occurs in `parsed["message"]` —
only the message field is scanned. -/
def isCrashFlag (p : IviParsed) : Bool :=
  crashKeywords.any fun k => pyInStr k p.message

/-! ### Sample data used by the concrete theorems -/

/-- A record whose level is INFO (other fields arbitrary but concrete). -/
def infoRecord : LogEntry :=
  ⟨⟨2025, 1, 7, 12, 0, 0, 0⟩, .INFO, 100, 200, [], [], []⟩

/-- A record whose level is WARN. -/
def warnRecord : LogEntry :=
  ⟨⟨2025, 1, 7, 12, 0, 0, 0⟩, .WARN, 100, 200, [], [], []⟩

/-- A line that is well-formed (it matches `LOGCAT_REGEX`) except that its
level column holds `'X'` — uppercase, but not one of the six meaningful level
codes. -/
def uppercaseXLine : List Char :=
  "01-07 12:34:56.789  1234  5678 X MyTag: hello".toList

/-- A raw line in which the marker `FATAL EXCEPTION` sits in the tag column,
not in the message. -/
def crashTagLine : List Char :=
  "01-07 12:34:56.789  1234  5678 E FATAL EXCEPTION: main".toList

/-- What `ivi_toolbox.py`'s `_parse_log_line` produces for `crashTagLine`. -/
def crashTagParsed : IviParsed :=
  ⟨"01-07 12:34:56.789".toList, "1234".toList, "5678".toList, 'E',
   "FATAL EXCEPTION".toList, "main".toList⟩

/-- A raw line in which the marker `FATAL EXCEPTION` sits in the message. -/
def crashMsgLine : List Char :=
  "01-07 12:34:56.789  1234  5678 I MyTag: FATAL EXCEPTION in thread".toList

/-- What `ivi_toolbox.py`'s `_parse_log_line` produces for `crashMsgLine`. -/
def crashMsgParsed : IviParsed :=
  ⟨"01-07 12:34:56.789".toList, "1234".toList, "5678".toList, 'I',
   "MyTag".toList, "FATAL EXCEPTION in thread".toList⟩

/-! ### Theorems -/

/-- Claim C1 — the code violates it.  Tightening `min_level` from VERBOSE to
ERROR on the one-record stream `[infoRecord]` (criteria otherwise identical
and empty) RAISES the number of records accepted by `_check_log_filter` from
0 to 1: the level guard compares the code points of the level letters
(`'I' < 'V'` rejects, `'I' ≥ 'E'` accepts), not the severity order. -/
theorem tightening_min_level_raises_accepted_count :
    countAccepted defaultFilterCriteria [infoRecord] = 0 ∧
    countAccepted errorFilterCriteria [infoRecord] = 1 :=
  ⟨rfl, rfl⟩

/-- Claim C7 — the code violates it.  When the producer process exits on its
own (EOF on its stdout) the reader loop falls into the `finally` block, which
sets `_running = False` and only then calls `stop_monitor`; the guard
`if not self._running: return` therefore makes `stop_monitor` a no-op and the
process handle `_adb_process` is never released on this exit path. -/
theorem producer_self_exit_retains_process_handle :
    (producerSelfExitResult 7).adb_process = some 7 :=
  rfl

/-- Claim C10: clearing the live view empties the table and zeroes both
session counters, and leaves the monitor worker state (running flag and
process handle) and the filter criteria unchanged. -/
theorem clear_view_resets_counts_and_preserves_rest (s : AppState) :
    (clearLiveLogcatView s).logcat_table = [] ∧
    (clearLiveLogcatView s).logcat_total_lines = 0 ∧
    (clearLiveLogcatView s).logcat_displayed_lines = 0 ∧
    (clearLiveLogcatView s).worker = s.worker ∧
    (clearLiveLogcatView s).logcat_filter_criteria = s.logcat_filter_criteria :=
  ⟨rfl, rfl, rfl, rfl, rfl⟩

/-- Claim C5: with criteria `min_level = WARN` and every other field absent,
`_check_log_filter` rejects every INFO record and accepts every WARN
record. -/
theorem warn_criteria_rejects_info_accepts_warn (e : LogEntry) :
    (e.level = LogLevel.INFO → checkLogFilter warnFilterCriteria e = false) ∧
    (e.level = LogLevel.WARN → checkLogFilter warnFilterCriteria e = true) := by
  cases e with
  | mk ts lv pid tid tag msg raw =>
      constructor <;> intro h <;> (dsimp only at h; subst h; rfl)

/-- Witness for C5 at concrete records. -/
theorem warn_criteria_rejects_info_accepts_warn_witness :
    infoRecord.level = LogLevel.INFO ∧ warnRecord.level = LogLevel.WARN ∧
    checkLogFilter warnFilterCriteria infoRecord = false ∧
    checkLogFilter warnFilterCriteria warnRecord = true :=
  ⟨rfl, rfl,
   (warn_criteria_rejects_info_accepts_warn infoRecord).1 rfl,
   (warn_criteria_rejects_info_accepts_warn warnRecord).2 rfl⟩

/-- Claim C9: under the criteria installed by `__init__` (and by selecting
level "ALL"), `_check_log_filter` accepts a record exactly when its level is
VERBOSE or WARN; FATAL, ERROR, INFO, DEBUG and UNKNOWN records are all
rejected, because the guard compares the code points of the level letters and
`'V'` and `'W'` are the two largest. -/
theorem default_criteria_accept_only_verbose_and_warn (e : LogEntry) :
    checkLogFilter defaultFilterCriteria e = true ↔
      e.level = LogLevel.VERBOSE ∨ e.level = LogLevel.WARN := by
  cases e with
  | mk ts lv pid tid tag msg raw =>
      cases lv <;> simp [checkLogFilter, defaultFilterCriteria, LogLevel.value]

/-- One push into a table holding at most `MAX_LIVE_LOG_ROWS` rows keeps
exactly the last `buf.length + 1` rows that fit. -/
theorem pushLiveRow_eq {α : Type} (buf : List α) (e : α)
    (h : buf.length ≤ MAX_LIVE_LOG_ROWS) :
    pushLiveRow buf e = (buf ++ [e]).drop (buf.length + 1 - MAX_LIVE_LOG_ROWS) := by
  have hM : MAX_LIVE_LOG_ROWS = 5000 := rfl
  unfold pushLiveRow
  by_cases hm : MAX_LIVE_LOG_ROWS ≤ buf.length
  · have hlen : buf.length = MAX_LIVE_LOG_ROWS := le_antisymm h hm
    rw [if_pos hm, hlen]
    have h1 : MAX_LIVE_LOG_ROWS + 1 - MAX_LIVE_LOG_ROWS = 1 := by omega
    rw [h1, List.drop_append_of_le_length (by omega : 1 ≤ buf.length)]
  · rw [if_neg hm]
    have h0 : buf.length + 1 - MAX_LIVE_LOG_ROWS = 0 := by omega
    rw [h0, List.drop_zero]

/-- Folding `pushLiveRow` over a stream keeps exactly the rows that fit,
i.e. the final segment of the concatenated history. -/
theorem foldl_pushLiveRow_eq {α : Type} (recs : List α) :
    ∀ buf : List α, buf.length ≤ MAX_LIVE_LOG_ROWS →
      recs.foldl pushLiveRow buf =
        (buf ++ recs).drop (buf.length + recs.length - MAX_LIVE_LOG_ROWS) := by
  have hM : MAX_LIVE_LOG_ROWS = 5000 := rfl
  induction recs with
  | nil =>
      intro buf h
      rw [List.foldl_nil, List.append_nil]
      have h0 : buf.length + ([] : List α).length - MAX_LIVE_LOG_ROWS = 0 := by
        simp only [List.length_nil]
        omega
      rw [h0, List.drop_zero]
  | cons e rs ih =>
      intro buf h
      have hd : buf.length + 1 - MAX_LIVE_LOG_ROWS ≤ (buf ++ [e]).length := by
        simp
      have hlen : (pushLiveRow buf e).length ≤ MAX_LIVE_LOG_ROWS := by
        rw [pushLiveRow_eq buf e h, List.length_drop]
        simp only [List.length_append, List.length_cons, List.length_nil]
        omega
      rw [List.foldl_cons, ih (pushLiveRow buf e) hlen, pushLiveRow_eq buf e h,
          ← List.drop_append_of_le_length hd, List.drop_drop]
      have hcongr : ∀ (n m : Nat) (l l' : List α), n = m → l = l' → l.drop n = l'.drop m := by
        intro n m l l' h1 h2
        rw [h1, h2]
      refine hcongr _ _ _ _ ?_ ?_
      · rw [List.length_drop]
        simp only [List.length_append, List.length_cons, List.length_nil]
        omega
      · simp

/-- Claim C2: pushing more than `MAX_LIVE_LOG_ROWS` records into the
initially empty live table leaves exactly `MAX_LIVE_LOG_ROWS` rows — the most
recently pushed ones, oldest first (the final segment of the push sequence);
in particular a sequence of `MAX_LIVE_LOG_ROWS + 1 = 5001` records leaves the
first record evicted and records 2..5001 present. -/
theorem live_buffer_keeps_last_capacity {α : Type} (recs : List α)
    (h : MAX_LIVE_LOG_ROWS < recs.length) :
    (liveBufferAfter recs).length = MAX_LIVE_LOG_ROWS ∧
    liveBufferAfter recs = recs.drop (recs.length - MAX_LIVE_LOG_ROWS) ∧
    (recs.length = MAX_LIVE_LOG_ROWS + 1 → liveBufferAfter recs = recs.drop 1) := by
  have hM : MAX_LIVE_LOG_ROWS = 5000 := rfl
  have key : liveBufferAfter recs = recs.drop (recs.length - MAX_LIVE_LOG_ROWS) := by
    unfold liveBufferAfter
    rw [foldl_pushLiveRow_eq recs [] (by simp)]
    simp
  refine ⟨?_, key, fun h1 => ?_⟩
  · rw [key, List.length_drop]
    omega
  · rw [key, h1]
    have h2 : MAX_LIVE_LOG_ROWS + 1 - MAX_LIVE_LOG_ROWS = 1 := by omega
    rw [h2]

/-- Witness for C2: 5001 pushed records. -/
theorem live_buffer_keeps_last_capacity_witness :
    MAX_LIVE_LOG_ROWS < (List.range 5001).length ∧
    (liveBufferAfter (List.range 5001)).length = MAX_LIVE_LOG_ROWS ∧
    liveBufferAfter (List.range 5001) = (List.range 5001).drop 1 := by
  have hh : MAX_LIVE_LOG_ROWS < (List.range 5001).length := by
    rw [List.length_range]
    decide
  refine ⟨hh, (live_buffer_keeps_last_capacity _ hh).1,
    (live_buffer_keeps_last_capacity _ hh).2.2 ?_⟩
  rw [List.length_range]
  rfl

/-- Writing one line through the recorder appends exactly that line to the
concatenation of all segments, whether or not the write triggers rotation. -/
theorem recorderWrite_flatten {α : Type} (sz : α → Nat) (maxBytes : Nat)
    (s : RecorderState α) (l : α) :
    (segmentsOf (recorderWrite sz maxBytes s l)).flatten =
      (segmentsOf s).flatten ++ [l] := by
  unfold recorderWrite segmentsOf
  by_cases hb : maxBytes < s.currentSize + sz l
  · rw [if_pos hb]; simp
  · rw [if_neg hb]; simp

/-- Folding the recorder over a stream appends the stream to the
concatenation of all segments. -/
theorem foldl_recorderWrite_flatten {α : Type} (sz : α → Nat) (maxBytes : Nat)
    (lines : List α) :
    ∀ s : RecorderState α,
      (segmentsOf (lines.foldl (recorderWrite sz maxBytes) s)).flatten =
        (segmentsOf s).flatten ++ lines := by
  induction lines with
  | nil => intro s; simp
  | cons l ls ih =>
      intro s
      rw [List.foldl_cons, ih, recorderWrite_flatten]
      simp

/-- Claim C6: when a stream whose total byte size exceeds the rotation
threshold is written through `_recorder_worker`, concatenating the produced
segments in increasing part order reproduces the original stream exactly; in
particular every line occurs across the segments exactly as often as it
occurs in the stream (no loss, no duplication). -/
theorem rotation_reproduces_stream {α : Type} [DecidableEq α] (sz : α → Nat)
    (maxBytes : Nat) (lines : List α)
    (h : maxBytes < (lines.map sz).sum) :
    (segmentsOf (recorderRun sz maxBytes lines)).flatten = lines ∧
    ∀ x : α,
      ((segmentsOf (recorderRun sz maxBytes lines)).map (List.count x)).sum =
        lines.count x := by
  have key : (segmentsOf (recorderRun sz maxBytes lines)).flatten = lines := by
    unfold recorderRun
    rw [foldl_recorderWrite_flatten]
    simp [segmentsOf, recorderInit]
  refine ⟨key, fun x => ?_⟩
  rw [← List.count_flatten, key]

/-- Witness for C6: two 2-byte lines against a 1-byte threshold. -/
theorem rotation_reproduces_stream_witness :
    1 < ((["ab", "cd"] : List String).map String.length).sum ∧
    (segmentsOf (recorderRun String.length 1 ["ab", "cd"])).flatten = ["ab", "cd"] ∧
    ((segmentsOf (recorderRun String.length 1 ["ab", "cd"])).map
        (List.count "ab")).sum = (["ab", "cd"] : List String).count "ab" := by
  have hh : 1 < ((["ab", "cd"] : List String).map String.length).sum := by decide
  exact ⟨hh, (rotation_reproduces_stream String.length 1 ["ab", "cd"] hh).1,
    (rotation_reproduces_stream String.length 1 ["ab", "cd"] hh).2 "ab"⟩

/-- Claim C3 (counterexample): a structurally unparseable line does NOT
yield a `LogEntry` carrying the raw line — `_parse_log_line` returns `None`
and the caller drops the line. -/
theorem unparseable_line_is_dropped :
    parseLogLine ("garbage".toList) = none := by
  decide

/-- Claim C3 (amended): parsing is total (the `try`/`except` absorbs every
exception, so `_parse_log_line` never throws), but no input line ever yields
a `LogRecord`: structurally unparseable lines fall through to `return None`,
and structurally well-formed lines also return `None` because the `try`
block's own `datetime.now()` call raises (line 3 imports the `datetime`
MODULE, not the class).  Every line is dropped; in particular no record
retaining `raw_line`, with UNKNOWN level and sentinel pid/tid, is ever
built. -/
theorem parse_drops_every_line (line : List Char) :
    parseLogLine line = none := by
  unfold parseLogLine
  cases matchLogcat line <;> rfl

/-- Claim C4 — the code violates it.  `uppercaseXLine` is well-formed except
for its level column (`LOGCAT_REGEX` matches it, with level group `'X'`,
outside `{F,E,W,I,D,V}`), yet `_parse_log_line` does not yield an UNKNOWN
record: the `datetime.now()` call inside the `try` raises `AttributeError`
(`import datetime` binds the module, which has no attribute `now`), the
`except` absorbs it, and the line is dropped — `None` — like every other
line, even though the level-mapping expression on lines 154-155 maps any
non-code character to UNKNOWN. -/
theorem well_formed_noncode_level_line_still_dropped :
    (matchLogcat uppercaseXLine).isSome = true ∧
    (matchLogcat uppercaseXLine).map LogcatGroups.level = some 'X' ∧
    parseLogLine uppercaseXLine = none :=
  ⟨by decide, by decide, by decide⟩

/-- Claim C8 (counterexample): a raw line containing the marker
`FATAL EXCEPTION` in its tag column parses successfully, yet the crash scan
of `_format_log_line` does not flag it — only `parsed["message"]` is
scanned, not the raw line. -/
theorem crash_marker_outside_message_not_flagged :
    pyInStr ("FATAL EXCEPTION".toList) crashTagLine = true ∧
    iviParseLogLine crashTagLine = some crashTagParsed ∧
    isCrashFlag crashTagParsed = false :=
  ⟨by decide, by decide, by decide⟩

/-- Claim C8 (amended): for every parsed line whose MESSAGE field contains
`FATAL EXCEPTION`, the crash scan flags it as CRASH, regardless of the
parsed level field (and of every other field). -/
theorem crash_marker_in_message_flagged (line : List Char) (p : IviParsed)
    (hp : iviParseLogLine line = some p)
    (hm : pyInStr ("FATAL EXCEPTION".toList) p.message = true) :
    isCrashFlag p = true := by
  unfold isCrashFlag crashKeywords
  simp only [List.any_cons, hm, Bool.true_or]

/-- Witness for C8 at a line carrying the marker in its message, with level
`I` (not an error level). -/
theorem crash_marker_in_message_flagged_witness :
    iviParseLogLine crashMsgLine = some crashMsgParsed ∧
    pyInStr ("FATAL EXCEPTION".toList) crashMsgParsed.message = true ∧
    crashMsgParsed.level = 'I' ∧
    isCrashFlag crashMsgParsed = true :=
  ⟨by decide, by decide, by decide,
   crash_marker_in_message_flagged crashMsgLine crashMsgParsed
     (by decide) (by decide)⟩
